import Mathlib

/-!
Verification development for the elsa-data beacon lambda deployment stack.

The first part shallowly embeds the stack definition
(`src/unnamed/part_000`, the `ElsaDataBeaconLambdaStack` class) and the
CDK entry point (`src/bin/elsa-data-beacon-lambda.ts`) as pure Lean
functions producing configuration descriptors.  The second part models,
from the specification, the validating factories (Permission Policy
Builder, Compute Binding Factory, Stack Assembly) that the specification
describes as design intent; the source snippet itself performs no
validation.
-/

/-- An IAM policy statement as constructed in the stack: a list of action
patterns and a list of resource ARN patterns (effect is always Allow). -/
structure PolicyStatement where
  actions : List String
  resources : List String
  deriving Repr, DecidableEq

/-- An IAM role as assembled by the stack constructor: the service
principal that may assume it, its description, the attached managed
policies (by name) and the attached inline policy statements. -/
structure Role where
  constructId : String
  assumedBy : String
  description : String
  managedPolicies : List String
  inlinePolicies : List PolicyStatement
  deriving Repr, DecidableEq

/-- Lambda CPU architectures. -/
inductive Architecture where
  | ARM_64
  | X86_64
  deriving Repr, DecidableEq

/-- A Docker image code reference: the local build-context directory and
the (here empty) build options, mirroring
`DockerImageCode.fromImageAsset("application/lambda/beacon", {})`. -/
structure DockerImageCode where
  directory : String
  buildOptions : List (String × String)
  deriving Repr, DecidableEq

/-- The configuration of a `DockerImageFunction` as constructed by the
stack. -/
structure DockerImageFunction where
  constructId : String
  code : DockerImageCode
  timeoutSeconds : Int
  functionName : String
  architecture : Architecture
  role : Role
  deriving Repr, DecidableEq

/-- A deployment environment: AWS account and region. -/
structure Env where
  account : String
  region : String
  deriving Repr, DecidableEq

/-- Stack properties, mirroring `cdk.StackProps` restricted to the one
field the repository uses. -/
structure StackProps where
  env : Option Env
  deriving Repr, DecidableEq

/-- The descriptor a stack instantiation produces: its construct id, the
props handed to `super`, and the resources declared in the constructor. -/
structure Stack where
  id : String
  props : Option StackProps
  roles : List Role
  functions : List DockerImageFunction
  deriving Repr, DecidableEq

/-- Shallow embedding of the `ElsaDataBeaconLambdaStack` constructor from
`src/unnamed/part_000`: creates the lambda execution role, attaches the
managed `service-role/AWSLambdaBasicExecutionRole` policy and the inline
S3 read policy, then declares the `elsa-data-beacon` docker image
function bound to that role. -/
def ElsaDataBeaconLambdaStack (id : String) (props : Option StackProps) : Stack :=
  let lambdaRoleInit : Role :=
    { constructId := "Role"
      assumedBy := "lambda.amazonaws.com"
      description := "Lambda execution role for " ++ id
      managedPolicies := []
      inlinePolicies := [] }
  let s3BucketPolicy : PolicyStatement :=
    { actions := ["s3:List*", "s3:Get*"]
      resources := ["arn:aws:s3:::umccr-10*"] }
  let lambdaRole : Role :=
    { lambdaRoleInit with
      managedPolicies :=
        lambdaRoleInit.managedPolicies ++ ["service-role/AWSLambdaBasicExecutionRole"]
      inlinePolicies := lambdaRoleInit.inlinePolicies ++ [s3BucketPolicy] }
  let beacon : DockerImageFunction :=
    { constructId := "BeaconHandler"
      code := { directory := "application/lambda/beacon", buildOptions := [] }
      timeoutSeconds := 60
      functionName := "elsa-data-beacon"
      architecture := Architecture.ARM_64
      role := lambdaRole }
  { id := id, props := props, roles := [lambdaRole], functions := [beacon] }

/-- Shallow embedding of the entry point
`src/bin/elsa-data-beacon-lambda.ts`: one app instantiating the stack
once, with the fixed id and the fixed UMCCR dev account/region. -/
def app : List Stack :=
  [ElsaDataBeaconLambdaStack "ElaDataBeaconLambdaStack"
    (some { env := some { account := "843407916570", region := "ap-southeast-2" } })]

/-- The function name used by the documented invocation example
(`src/unnamed/part_001`): `aws lambda invoke --function-name elsa-data-beacon`. -/
def invokeFunctionName : String := "elsa-data-beacon"

/-! ## Spec-modelled validation layer

The specification (sections 4.1-4.4, 7, 8) describes validating
factories that the repository's source does not itself contain; the
definitions below are modelled from the specification's words. -/

/-- The assembly-time error taxonomy of spec section 7. -/
inductive AssemblyError where
  | InvalidPermissionScope
  | DuplicateBindingName
  | TimeoutOutOfRange
  | InconsistentAssembly
  deriving Repr, DecidableEq

/-- A permission statement as in spec section 3 (effect is always
Allow). -/
structure PermissionStatement where
  actions : List String
  resourcePatterns : List String
  deriving Repr, DecidableEq

/-- An execution identity as in spec section 3. -/
structure ExecutionIdentity where
  trustedPrincipal : String
  managedPolicies : List String
  inlineStatements : List PermissionStatement
  deriving Repr, DecidableEq

/-- A compute binding as in spec section 3. -/
structure ComputeBinding where
  name : String
  imageRef : String
  timeoutSeconds : Int
  architecture : Architecture
  identity : ExecutionIdentity
  deriving Repr, DecidableEq

/-- A deployment target as in spec section 3. -/
structure DeploymentTarget where
  account : String
  region : String
  deriving Repr, DecidableEq

/-- The chars of a string after its first colon (the part of an action
pattern such as `s3:List*` following the service name). -/
def afterColon : List Char → List Char
  | [] => []
  | c :: cs => if c = ':' then cs else afterColon cs

/-- Modelled from the spec (section 4.1): the action verb of an action
pattern — the part after the service name, with the trailing wildcard
stripped, lower-cased. -/
def actionVerb (a : String) : String :=
  String.mk (((afterColon a.data).takeWhile (fun c => c ≠ '*')).map Char.toLower)

/-- Modelled from the spec (sections 4.1 and 8): the allow-list of
read-only action verbs for the target storage service. -/
def readOnlyVerbs : List String := ["list", "get"]

/-- Whether an action pattern's verb is in the read-only allow-list. -/
def actionAllowed (a : String) : Bool := readOnlyVerbs.contains (actionVerb a)

/-- Does the first char list start with the second? -/
def charsStartWith : List Char → List Char → Bool
  | _, [] => true
  | [], _ :: _ => false
  | c :: cs, d :: ds => c = d && charsStartWith cs ds

/-- Modelled from the spec (sections 4.1 and 9): the organization's
approved bucket-naming scheme, inferred from the `umccr-10*` resource
in the source. -/
def approvedBucketArnStart : String := "arn:aws:s3:::umccr-"

/-- Whether a resource ARN pattern matches the approved bucket-naming
scheme. -/
def resourceApproved (r : String) : Bool :=
  charsStartWith r.data approvedBucketArnStart.data

/-- The combined validity condition of the Permission Policy Builder:
every action verb is in the read-only allow-list, every resource pattern
matches the approved bucket-naming scheme, and (spec section 3
invariant) both sets are non-empty. -/
def permissionScopeOk (actions resources : List String) : Bool :=
  actions.all actionAllowed && resources.all resourceApproved &&
    !actions.isEmpty && !resources.isEmpty

/-- Modelled from the spec (section 4.1): the Permission Policy Builder.
Given allowed action verbs and resource patterns it produces a
`PermissionStatement`, failing with `InvalidPermissionScope` when an
action is outside the read-only allow-list or a resource pattern does
not match the approved bucket-naming scheme. -/
def buildPermissionStatement (actions resources : List String) :
    Except AssemblyError PermissionStatement :=
  if permissionScopeOk actions resources then
    Except.ok { actions := actions, resourcePatterns := resources }
  else
    Except.error AssemblyError.InvalidPermissionScope

/-- The compute service principal trusted by every execution identity
(spec section 3 invariant). -/
def computeServicePrincipal : String := "lambda.amazonaws.com"

/-- The baseline managed logging/execution policy (spec section 4.2). -/
def baselineLoggingPolicy : String := "service-role/AWSLambdaBasicExecutionRole"

/-- Modelled from the spec (section 4.2): the Execution Identity Factory
creates an identity trusting the compute service principal, attaches the
baseline managed logging/execution policy, and attaches zero or more
additional permission statements. -/
def mkExecutionIdentity (stmts : List PermissionStatement) : ExecutionIdentity :=
  { trustedPrincipal := computeServicePrincipal
    managedPolicies := [baselineLoggingPolicy]
    inlineStatements := stmts }

/-- The platform's maximum allowed execution time in seconds (spec
section 8 gives 900 s as the platform maximum). -/
def platformMaxTimeoutSeconds : Int := 900

/-- Modelled from the spec (section 4.3): the Compute Binding Factory.
`existing` is the set of binding names already registered within the
same deployment target.  Fails with `TimeoutOutOfRange` when the timeout
is non-positive or exceeds the platform maximum, and with
`DuplicateBindingName` when the name collides with an existing binding
in the same target. -/
def mkComputeBinding (existing : List String) (name imageRef : String)
    (timeoutSeconds : Int) (arch : Architecture) (identity : ExecutionIdentity) :
    Except AssemblyError ComputeBinding :=
  if timeoutSeconds ≤ 0 ∨ platformMaxTimeoutSeconds < timeoutSeconds then
    Except.error AssemblyError.TimeoutOutOfRange
  else if existing.contains name then
    Except.error AssemblyError.DuplicateBindingName
  else
    Except.ok
      { name := name, imageRef := imageRef, timeoutSeconds := timeoutSeconds
        architecture := arch, identity := identity }

/-- The input configuration of a Stack Assembly run (spec section 4.4). -/
structure AssemblyInput where
  actions : List String
  resources : List String
  name : String
  timeoutSeconds : Int
  architecture : Architecture
  target : DeploymentTarget
  deriving Repr, DecidableEq

/-- The fully specified deployment descriptor a successful assembly
yields (spec section 4.4). -/
structure DeploymentDescriptor where
  binding : ComputeBinding
  target : DeploymentTarget
  deriving Repr, DecidableEq

/-- The fixed image artifact locator used by the stack. -/
def beaconImageRef : String := "application/lambda/beacon"

/-- Modelled from the spec (sections 4.4 and 7): Stack Assembly
orchestrates the factories, aggregating every validation failure rather
than stopping at the first; it yields either one consistent descriptor
or the list of all violated constraints, never a partial descriptor. -/
def assemble (inp : AssemblyInput) : Except (List AssemblyError) DeploymentDescriptor :=
  match buildPermissionStatement inp.actions inp.resources with
  | Except.ok stmt =>
    match mkComputeBinding [] inp.name beaconImageRef inp.timeoutSeconds
        inp.architecture (mkExecutionIdentity [stmt]) with
    | Except.ok b => Except.ok { binding := b, target := inp.target }
    | Except.error e => Except.error [e]
  | Except.error e₁ =>
    match mkComputeBinding [] inp.name beaconImageRef inp.timeoutSeconds
        inp.architecture (mkExecutionIdentity []) with
    | Except.ok _ => Except.error [e₁]
    | Except.error e₂ => Except.error [e₁, e₂]

/-- The end-to-end scenario input of spec section 8, parameterized by
the timeout. -/
def scenarioInput (timeoutSeconds : Int) : AssemblyInput :=
  { actions := ["s3:List*", "s3:Get*"]
    resources := ["arn:aws:s3:::umccr-10*"]
    name := "elsa-data-beacon"
    timeoutSeconds := timeoutSeconds
    architecture := Architecture.ARM_64
    target := { account := "843407916570", region := "ap-southeast-2" } }

/-! ## Claim theorems -/

/-- Claim C1: assembling the stack with actions `s3:List*`/`s3:Get*`,
resources `arn:aws:s3:::umccr-10*`, name `elsa-data-beacon`, timeout
60 s, architecture ARM64 and target account `843407916570` / region
`ap-southeast-2` succeeds, yielding exactly one compute binding bound to
exactly one execution identity that carries exactly one inline
permission statement with exactly those actions and resources plus the
single baseline `AWSLambdaBasicExecutionRole` managed policy: shown both
for the embedded stack constructor and for the spec-modelled assembly. -/
theorem assembly_end_to_end_success :
    app.length = 1 ∧
    (ElsaDataBeaconLambdaStack "ElaDataBeaconLambdaStack"
        (some { env := some { account := "843407916570", region := "ap-southeast-2" } })).roles =
      [{ constructId := "Role"
         assumedBy := "lambda.amazonaws.com"
         description := "Lambda execution role for ElaDataBeaconLambdaStack"
         managedPolicies := ["service-role/AWSLambdaBasicExecutionRole"]
         inlinePolicies := [{ actions := ["s3:List*", "s3:Get*"]
                              resources := ["arn:aws:s3:::umccr-10*"] }] }] ∧
    (ElsaDataBeaconLambdaStack "ElaDataBeaconLambdaStack"
        (some { env := some { account := "843407916570", region := "ap-southeast-2" } })).functions =
      [{ constructId := "BeaconHandler"
         code := { directory := "application/lambda/beacon", buildOptions := [] }
         timeoutSeconds := 60
         functionName := "elsa-data-beacon"
         architecture := Architecture.ARM_64
         role := { constructId := "Role"
                   assumedBy := "lambda.amazonaws.com"
                   description := "Lambda execution role for ElaDataBeaconLambdaStack"
                   managedPolicies := ["service-role/AWSLambdaBasicExecutionRole"]
                   inlinePolicies := [{ actions := ["s3:List*", "s3:Get*"]
                                        resources := ["arn:aws:s3:::umccr-10*"] }] } }] ∧
    assemble (scenarioInput 60) =
      Except.ok
        { binding :=
            { name := "elsa-data-beacon"
              imageRef := "application/lambda/beacon"
              timeoutSeconds := 60
              architecture := Architecture.ARM_64
              identity :=
                { trustedPrincipal := "lambda.amazonaws.com"
                  managedPolicies := ["service-role/AWSLambdaBasicExecutionRole"]
                  inlineStatements := [{ actions := ["s3:List*", "s3:Get*"]
                                         resourcePatterns := ["arn:aws:s3:::umccr-10*"] }] } }
          target := { account := "843407916570", region := "ap-southeast-2" } } :=
  ⟨rfl, rfl, rfl, rfl⟩

/-- Claim C5: stack assembly is deterministic — both the embedded stack
constructor and the spec-modelled assembly, being pure functions with no
hidden source of nondeterminism, map structurally equal inputs to
structurally identical descriptors. -/
theorem stack_assembly_deterministic (a b : String) (p q : Option StackProps)
    (i j : AssemblyInput) (hab : a = b) (hpq : p = q) (hij : i = j) :
    ElsaDataBeaconLambdaStack a p = ElsaDataBeaconLambdaStack b q ∧
      assemble i = assemble j := by
  rw [hab, hpq, hij]
  exact ⟨rfl, rfl⟩

/-- Witness for C5 at concrete inputs. -/
theorem stack_assembly_deterministic_witness :
    ElsaDataBeaconLambdaStack "ElaDataBeaconLambdaStack" none =
        ElsaDataBeaconLambdaStack "ElaDataBeaconLambdaStack" none ∧
      assemble (scenarioInput 60) = assemble (scenarioInput 60) :=
  stack_assembly_deterministic "ElaDataBeaconLambdaStack" "ElaDataBeaconLambdaStack"
    none none (scenarioInput 60) (scenarioInput 60) rfl rfl rfl

/-- Claim C7: the deployment target of the entry point is fixed to the
single pre-approved environment, account `843407916570` / region
`ap-southeast-2`: the entry point creates exactly one stack and the only
props it ever passes carry exactly that account/region pair. -/
theorem deploymentTarget_fixed :
    app.length = 1 ∧
      app.map Stack.props =
        [some { env := some { account := "843407916570", region := "ap-southeast-2" } }] :=
  ⟨rfl, rfl⟩

/-- Claim C8: the function name under which the deployed compute unit is
invocable equals the name the binding declares — every stack
instantiation declares exactly one function, named `elsa-data-beacon`,
which is exactly the `--function-name` of the documented invocation
example. -/
theorem functionName_matches_invocation (i : String) (p : Option StackProps) :
    (ElsaDataBeaconLambdaStack i p).functions.map DockerImageFunction.functionName =
        [invokeFunctionName] ∧
      invokeFunctionName = "elsa-data-beacon" :=
  ⟨rfl, rfl⟩

/-- Claim C9: every run of the entry point creates exactly one stack,
its identifier is the fixed literal `ElaDataBeaconLambdaStack` (missing
the `s` of `Elsa`), and the execution role's description is
`Lambda execution role for ` concatenated with that identifier. -/
theorem single_stack_id_and_description :
    app.length = 1 ∧ app.map Stack.id = ["ElaDataBeaconLambdaStack"] ∧
      app.map (fun s => s.roles.map Role.description) =
        [["Lambda execution role for ElaDataBeaconLambdaStack"]] :=
  ⟨rfl, rfl, rfl⟩

/-- Claim C10: the binding's image artifact locator is the constant
build-context path `application/lambda/beacon` with empty build options,
and no constructor argument can change the image reference, the function
name, the timeout or the architecture — they are the same for every
choice of constructor arguments. -/
theorem binding_configuration_fixed (i : String) (p : Option StackProps) :
    (ElsaDataBeaconLambdaStack i p).functions.map DockerImageFunction.code =
        [{ directory := "application/lambda/beacon", buildOptions := [] }] ∧
      (ElsaDataBeaconLambdaStack i p).functions.map DockerImageFunction.functionName =
        ["elsa-data-beacon"] ∧
      (ElsaDataBeaconLambdaStack i p).functions.map DockerImageFunction.timeoutSeconds = [60] ∧
      (ElsaDataBeaconLambdaStack i p).functions.map DockerImageFunction.architecture =
        [Architecture.ARM_64] :=
  ⟨rfl, rfl, rfl, rfl⟩

/-- Claim C2: the Permission Policy Builder fails with
`InvalidPermissionScope` whenever the requested actions contain a verb
outside the read-only allow-list (list, get), and likewise whenever a
resource pattern does not match the approved bucket-naming scheme. -/
theorem buildPermissionStatement_invalid_scope (actions resources : List String)
    (h : (∃ a ∈ actions, actionAllowed a = false) ∨
         (∃ r ∈ resources, resourceApproved r = false)) :
    buildPermissionStatement actions resources =
      Except.error AssemblyError.InvalidPermissionScope := by
  have hfalse : permissionScopeOk actions resources = false := by
    rcases h with ⟨a, ha, hbad⟩ | ⟨r, hr, hbad⟩
    · have h1 : actions.all actionAllowed = false := by
        cases hall : actions.all actionAllowed with
        | false => rfl
        | true => exact absurd (List.all_eq_true.mp hall a ha) (by simp [hbad])
      simp [permissionScopeOk, h1]
    · have h1 : resources.all resourceApproved = false := by
        cases hall : resources.all resourceApproved with
        | false => rfl
        | true => exact absurd (List.all_eq_true.mp hall r hr) (by simp [hbad])
      simp [permissionScopeOk, h1]
  simp [buildPermissionStatement, hfalse]

/-- Witness for C2: the write verb `s3:Put*` is rejected. -/
theorem buildPermissionStatement_invalid_scope_witness :
    buildPermissionStatement ["s3:Put*"] ["arn:aws:s3:::umccr-10*"] =
      Except.error AssemblyError.InvalidPermissionScope :=
  buildPermissionStatement_invalid_scope ["s3:Put*"] ["arn:aws:s3:::umccr-10*"]
    (Or.inl ⟨"s3:Put*", by decide, by decide⟩)

/-- Claim C3: the Compute Binding Factory fails with `TimeoutOutOfRange`
for every timeout that is non-positive or above the platform maximum,
and the end-to-end assembly with a 1000 s timeout fails that way,
returning no partial descriptor. -/
theorem mkComputeBinding_timeout_out_of_range (existing : List String)
    (name imageRef : String) (t : Int) (arch : Architecture)
    (identity : ExecutionIdentity)
    (h : t ≤ 0 ∨ platformMaxTimeoutSeconds < t) :
    mkComputeBinding existing name imageRef t arch identity =
        Except.error AssemblyError.TimeoutOutOfRange ∧
      assemble (scenarioInput 1000) = Except.error [AssemblyError.TimeoutOutOfRange] ∧
      ∀ d, assemble (scenarioInput 1000) ≠ Except.ok d := by
  refine ⟨?_, rfl, ?_⟩
  · unfold mkComputeBinding
    rw [if_pos h]
  · intro d hd
    rw [show assemble (scenarioInput 1000) =
        Except.error [AssemblyError.TimeoutOutOfRange] from rfl] at hd
    exact Except.noConfusion hd

/-- Witness for C3 at the 1000 s scenario timeout. -/
theorem mkComputeBinding_timeout_witness :
    mkComputeBinding [] "elsa-data-beacon" beaconImageRef 1000 Architecture.ARM_64
          (mkExecutionIdentity []) =
        Except.error AssemblyError.TimeoutOutOfRange ∧
      assemble (scenarioInput 1000) = Except.error [AssemblyError.TimeoutOutOfRange] ∧
      ∀ d, assemble (scenarioInput 1000) ≠ Except.ok d :=
  mkComputeBinding_timeout_out_of_range [] "elsa-data-beacon" beaconImageRef 1000
    Architecture.ARM_64 (mkExecutionIdentity []) (Or.inr (by decide))

/-- Claim C4: two Compute Binding Factory calls within the same
deployment target using the same name — the first call (name not yet
registered) succeeds, and the second call, made once the name is
registered, fails with `DuplicateBindingName`. -/
theorem mkComputeBinding_duplicate_name (existing : List String)
    (name imageRef : String) (t : Int) (arch : Architecture)
    (identity : ExecutionIdentity)
    (hfresh : name ∉ existing)
    (hpos : 0 < t) (hmax : t ≤ platformMaxTimeoutSeconds) :
    mkComputeBinding existing name imageRef t arch identity =
        Except.ok { name := name, imageRef := imageRef, timeoutSeconds := t
                    architecture := arch, identity := identity } ∧
      mkComputeBinding (name :: existing) name imageRef t arch identity =
        Except.error AssemblyError.DuplicateBindingName := by
  have hc : ¬(t ≤ 0 ∨ platformMaxTimeoutSeconds < t) := by
    push_neg
    exact ⟨hpos, hmax⟩
  constructor
  · unfold mkComputeBinding
    rw [if_neg hc, if_neg (by simpa using hfresh)]
  · unfold mkComputeBinding
    rw [if_neg hc, if_pos (by simp)]

/-- Witness for C4 at the scenario's binding name and timeout. -/
theorem mkComputeBinding_duplicate_name_witness :
    mkComputeBinding [] "elsa-data-beacon" beaconImageRef 60 Architecture.ARM_64
          (mkExecutionIdentity []) =
        Except.ok { name := "elsa-data-beacon", imageRef := beaconImageRef
                    timeoutSeconds := 60, architecture := Architecture.ARM_64
                    identity := mkExecutionIdentity [] } ∧
      mkComputeBinding ["elsa-data-beacon"] "elsa-data-beacon" beaconImageRef 60
          Architecture.ARM_64 (mkExecutionIdentity []) =
        Except.error AssemblyError.DuplicateBindingName :=
  mkComputeBinding_duplicate_name [] "elsa-data-beacon" beaconImageRef 60
    Architecture.ARM_64 (mkExecutionIdentity []) (by decide) (by decide) (by decide)

/-- Claim C6: every execution identity appearing in an assembled stack —
whether listed among the stack's roles or referenced by one of its
functions — trusts the compute (lambda) service principal and carries
the baseline managed logging/execution policy, and the spec-modelled
Execution Identity Factory preserves the same invariant for every list
of attached statements. -/
theorem executionIdentity_invariant (i : String) (p : Option StackProps) (r : Role)
    (hr : r ∈ (ElsaDataBeaconLambdaStack i p).roles ∨
          r ∈ (ElsaDataBeaconLambdaStack i p).functions.map DockerImageFunction.role) :
    (r.assumedBy = computeServicePrincipal ∧
        baselineLoggingPolicy ∈ r.managedPolicies) ∧
      ∀ stmts, (mkExecutionIdentity stmts).trustedPrincipal = computeServicePrincipal ∧
        baselineLoggingPolicy ∈ (mkExecutionIdentity stmts).managedPolicies := by
  refine ⟨?_, fun stmts => ⟨rfl, by simp [mkExecutionIdentity]⟩⟩
  simp only [ElsaDataBeaconLambdaStack, List.map_cons, List.map_nil,
    List.mem_singleton] at hr
  rcases hr with h | h <;> subst h <;>
    exact ⟨rfl, by simp [baselineLoggingPolicy, computeServicePrincipal]⟩

/-- Witness for C6: the concrete role of the deployed stack. -/
theorem executionIdentity_invariant_witness :
    (({ constructId := "Role"
        assumedBy := "lambda.amazonaws.com"
        description := "Lambda execution role for ElaDataBeaconLambdaStack"
        managedPolicies := ["service-role/AWSLambdaBasicExecutionRole"]
        inlinePolicies := [{ actions := ["s3:List*", "s3:Get*"]
                             resources := ["arn:aws:s3:::umccr-10*"] }] } : Role).assumedBy =
          computeServicePrincipal ∧
        baselineLoggingPolicy ∈
          ({ constructId := "Role"
             assumedBy := "lambda.amazonaws.com"
             description := "Lambda execution role for ElaDataBeaconLambdaStack"
             managedPolicies := ["service-role/AWSLambdaBasicExecutionRole"]
             inlinePolicies := [{ actions := ["s3:List*", "s3:Get*"]
                                  resources := ["arn:aws:s3:::umccr-10*"] }] } : Role).managedPolicies) ∧
      ∀ stmts, (mkExecutionIdentity stmts).trustedPrincipal = computeServicePrincipal ∧
        baselineLoggingPolicy ∈ (mkExecutionIdentity stmts).managedPolicies :=
  executionIdentity_invariant "ElaDataBeaconLambdaStack" none _ (Or.inl (by decide))
